import Mathlib

/-!
Shallow embedding of the django-shop management command module
`shop/management/commands/shop.py`, together with proofs about its
behaviour: the customer census (`customers`), the settings review
(`review_settings`) and the page/plugin checks and repairs
(`check_pages`, `check_page_content`, `create_page_structure`).

The external framework state (CMS pages, the apphook pool, the plugin
pool, customer records, the Django settings object) is modelled by
explicit records; the module's own functions are translated
line by line from the source.

Python strings formatted with `str.format` are modelled by `pyFormat`
over pre-split templates; a placeholder whose keyword argument is not
supplied raises `KeyError`, modelled by `PyError.keyError`.  The three
command error classes `MissingPage`, `MissingAppHook`, `MissingPlugin`
(all subclasses of `CommandError`) are the remaining constructors of
`PyError`, next to `indexError` for Python `IndexError` on `[0]`.
-/

namespace DjangoShop

/-- Values stored in a plugin glossary (the per-widget configuration
mapping).  Only the shapes occurring in the module are represented:
strings, integers, `None`, lists of strings and flat string
dictionaries. -/
inductive GVal where
  | str (s : String)
  | num (n : Int)
  | noneVal
  | strList (xs : List String)
  | strDict (xs : List (String × String))
deriving DecidableEq, Repr

/-- One piece of a Python format string: literal text or a `{name}`
placeholder. -/
inductive FmtPart where
  | lit (s : String)
  | field (name : String)
deriving DecidableEq, Repr

/-- The exceptions the module can raise: its three `CommandError`
subclasses, plus Python `KeyError` (raised by `str.format` on a
placeholder with no matching keyword argument, and by an unregistered
plugin-pool lookup) and `IndexError` (raised by `[0]` on an empty
sequence). -/
inductive PyError where
  | missingPage (msg : String)
  | missingAppHook (msg : String)
  | missingPlugin (msg : String)
  | keyError (key : String)
  | indexError
deriving DecidableEq, Repr

/-- `template.format(**args)`: substitute each placeholder by the named
argument; a placeholder whose name is not among the arguments raises
`KeyError` (extra arguments are ignored), as in Python. -/
def pyFormat : List FmtPart → List (String × String) → Except PyError String
  | [], _ => Except.ok ""
  | FmtPart.lit s :: rest, args => (pyFormat rest args).map (fun t => s ++ t)
  | FmtPart.field n :: rest, args =>
      match args.lookup n with
      | some v => (pyFormat rest args).map (fun t => v ++ t)
      | none => Except.error (PyError.keyError n)

/-- Python `needle in hay` on lists of characters. -/
def charsContain (needle : List Char) : List Char → Bool
  | [] => needle.isPrefixOf []
  | c :: rest => needle.isPrefixOf (c :: rest) || charsContain needle rest

/-- Python substring test `needle in hay` on strings. -/
def substr (needle hay : String) : Bool :=
  charsContain needle.data hay.data

/-- Python `dict.get(key, default)` over an association list. -/
def lookupD (xs : List (String × List String)) (key : String) (dflt : List String) :
    List String :=
  (xs.lookup key).getD dflt

/-! ### Customer census (`Command.customers`, source lines 67-91) -/

/-- One customer record, as seen by `Command.customers`: the flags it
reads from `customer` and `customer.user`. -/
structure Customer where
  is_active : Bool
  is_staff : Bool
  is_registered : Bool
  is_guest : Bool
  is_anonymous : Bool
  is_expired : Bool
deriving DecidableEq, Repr

/-- The tally dictionary built by `Command.customers` (source line 73). -/
structure CensusData where
  total : Nat
  anonymous : Nat
  active : Nat
  staff : Nat
  guests : Nat
  registered : Nat
  expired : Nat
deriving DecidableEq, Repr

/-- One iteration of the loop of `Command.customers` (source lines
74-89).  The second component is the customer store: a record is kept
unless it is expired and `delete_expired` is set, in which case
`customer.delete()` removes it. -/
def customers_step (delete_expired : Bool) (acc : CensusData × List Customer)
    (customer : Customer) : CensusData × List Customer :=
  let (data, store) := acc
  let data := { data with total := data.total + 1 }
  let data := if customer.is_active then { data with active := data.active + 1 } else data
  let data := if customer.is_staff then { data with staff := data.staff + 1 } else data
  let data :=
    if customer.is_registered then { data with registered := data.registered + 1 }
    else if customer.is_guest then { data with guests := data.guests + 1 }
    else if customer.is_anonymous then { data with anonymous := data.anonymous + 1 }
    else data
  if customer.is_expired then
    let data := { data with expired := data.expired + 1 }
    if delete_expired then (data, store) else (data, store ++ [customer])
  else (data, store ++ [customer])

/-- The summary template of source line 90, split at its placeholders. -/
def summaryTpl : List FmtPart :=
  [FmtPart.lit "Customers in this shop: total=", FmtPart.field "total",
   FmtPart.lit ", anonymous=", FmtPart.field "anonymous",
   FmtPart.lit ", expired=", FmtPart.field "expired",
   FmtPart.lit ", active=", FmtPart.field "active",
   FmtPart.lit ", guests=", FmtPart.field "guests",
   FmtPart.lit ", registered=", FmtPart.field "registered",
   FmtPart.lit ", staff=", FmtPart.field "staff",
   FmtPart.lit "."]

/-- The keyword arguments `**data` passed to `format` on source line 91,
in the key order of the dictionary literal of line 73. -/
def summaryArgs (data : CensusData) : List (String × String) :=
  [("total", toString data.total), ("anonymous", toString data.anonymous),
   ("active", toString data.active), ("staff", toString data.staff),
   ("guests", toString data.guests), ("registered", toString data.registered),
   ("expired", toString data.expired)]

/-- `Command.customers` (source lines 67-91): iterate over all customer
records, tally, optionally delete expired records, and print one
summary line.  Returns the final tallies, the surviving customer store
and the printed line. -/
def customers (delete_expired : Bool) (cs : List Customer) :
    CensusData × List Customer × Except PyError String :=
  let res := cs.foldl (customers_step delete_expired)
    ({ total := 0, anonymous := 0, active := 0, staff := 0, guests := 0,
       registered := 0, expired := 0 }, [])
  (res.1, res.2, pyFormat summaryTpl (summaryArgs res.1))

/-- The three customer categories of the census classification. -/
inductive CustomerCat where
  | registered
  | guest
  | anonymous
deriving DecidableEq, Repr

/-- The category a customer lands in under the priority order of the
`if/elif` chain of source lines 80-85: registered before guest before
anonymous, `none` when no flag is set. -/
def classify (c : Customer) : Option CustomerCat :=
  if c.is_registered then some CustomerCat.registered
  else if c.is_guest then some CustomerCat.guest
  else if c.is_anonymous then some CustomerCat.anonymous
  else none

/-- A customer matching exactly one of the three categories: exactly one
of the flags `is_registered`, `is_guest`, `is_anonymous` is set. -/
def exactlyOneCat (c : Customer) : Prop :=
  (cond c.is_registered 1 0) + (cond c.is_guest 1 0) + (cond c.is_anonymous 1 0) = 1

instance exactlyOneCatDecidable (c : Customer) : Decidable (exactlyOneCat c) :=
  inferInstanceAs (Decidable
    ((cond c.is_registered 1 0) + (cond c.is_guest 1 0) + (cond c.is_anonymous 1 0) = 1))

/-- The fully rendered summary line of source lines 90-91. -/
def renderSummary (d : CensusData) : String :=
  let t := toString d.staff ++ "."
  let t := ", staff=" ++ t
  let t := toString d.registered ++ t
  let t := ", registered=" ++ t
  let t := toString d.guests ++ t
  let t := ", guests=" ++ t
  let t := toString d.active ++ t
  let t := ", active=" ++ t
  let t := toString d.expired ++ t
  let t := ", expired=" ++ t
  let t := toString d.anonymous ++ t
  let t := ", anonymous=" ++ t
  let t := toString d.total ++ t
  "Customers in this shop: total=" ++ t

/-! ### Settings review (`Command.review_settings`, source lines 246-295) -/

/-- One entry of `settings.TEMPLATES`: its `BACKEND` string and the
`context_processors` list of its `OPTIONS` (empty when absent). -/
structure TemplateEngine where
  backend : String
  context_processors : List String
deriving DecidableEq, Repr

/-- The Django settings object, restricted to the attributes
`review_settings` reads.  `Option` fields model `getattr` defaults of
`None`; list fields model defaults of `[]`/`{}`; `node_modules_url`
defaults to `''`. -/
structure Settings where
  auth_user_model : Option String
  staticfiles_finders : List String
  staticfiles_dirs : List (String × String)
  node_modules_url : String
  templates : List TemplateEngine
  sass_processor_include_dirs : List String
  coerce_decimal_to_string : Option Bool
  fsm_admin_force_permit : Option Bool
  serialization_modules : List (String × String)
  rest_framework : List (String × List String)
  rest_auth_serializers : List (String × String)
  cmsplugin_cascade_plugins : List String
deriving DecidableEq, Repr

/-- The default Django template backend name compared on source line 262. -/
def djangoBackend : String := "django.template.backends.django.DjangoTemplates"

/-- The diagnostic yielded for the k-th rule of `review_settings`, in
source order (the literal strings of lines 250-295). -/
def ruleMsg : Nat → String
  | 0 => "settings.AUTH_USER_MODEL should be 'email_auth.User'."
  | 1 => "settings.STATICFILES_FINDERS should contain 'sass_processor.finders.CssFinder'."
  | 2 => "settings.STATICFILES_DIRS should contain ('node_modules', '/…/node_modules')."
  | 3 => "settings.NODE_MODULES_URL should start with a URL pointing onto /…/node_modules/."
  | 4 => "'shop.context_processors.customer' is missing in 'context_processors' of the default Django Template engine."
  | 5 => "'shop.context_processors.shop_settings' is missing in 'context_processors' of the default Django Template engine."
  | 6 => "settings.SASS_PROCESSOR_INCLUDE_DIRS should include the folder '…/node_modules'."
  | 7 => "settings.COERCE_DECIMAL_TO_STRING should be set to 'True'."
  | 8 => "settings.FSM_ADMIN_FORCE_PERMIT should be set to 'True'."
  | 9 => "settings.SERIALIZATION_MODULES['json'] should be set to 'shop.money.serializers'."
  | 10 => "settings.REST_FRAMEWORK['DEFAULT_RENDERER_CLASSES'] should contain class 'shop.rest.money.JSONRenderer'."
  | 11 => "settings.REST_FRAMEWORK['DEFAULT_FILTER_BACKENDS'] should contain class 'django_filters.rest_framework.DjangoFilterBackend'."
  | 12 => "settings.REST_AUTH_SERIALIZERS['LOGIN_SERIALIZER'] should be set to 'shop.serializers.auth.LoginSerializer'."
  | 13 => "settings.CMSPLUGIN_CASCADE_PLUGINS should contain entry 'shop.cascade'."
  | _ + 14 => ""

/-- The body of the `TEMPLATES` loop of source lines 261-268: engines
with another backend are skipped (`continue`), a default-backend engine
yields one diagnostic per missing context processor. -/
def templateDiag (te : TemplateEngine) : List String :=
  if !(te.backend == djangoBackend) then []
  else
    (if !(te.context_processors.contains "shop.context_processors.customer")
     then [ruleMsg 4] else []) ++
    (if !(te.context_processors.contains "shop.context_processors.shop_settings")
     then [ruleMsg 5] else [])

/-- `Command.review_settings` (source lines 246-295) as the list of
diagnostics the generator yields, in source order.  Each `if` mirrors
one check of the source; the `for/else` over
`SASS_PROCESSOR_INCLUDE_DIRS` (lines 270-274) yields exactly when no
directory contains `/node_modules`. -/
def review_settings (s : Settings) : List String :=
  (if s.auth_user_model != some "email_auth.User" then [ruleMsg 0] else []) ++
  (if !(s.staticfiles_finders.contains "sass_processor.finders.CssFinder")
   then [ruleMsg 1] else []) ++
  (if !((s.staticfiles_dirs.map Prod.fst).contains "node_modules")
   then [ruleMsg 2] else []) ++
  (if !(substr "/node_modules/" s.node_modules_url) then [ruleMsg 3] else []) ++
  (s.templates.flatMap templateDiag) ++
  (if !(s.sass_processor_include_dirs.any fun dir => substr "/node_modules" dir)
   then [ruleMsg 6] else []) ++
  (if s.coerce_decimal_to_string != some true then [ruleMsg 7] else []) ++
  (if s.fsm_admin_force_permit != some true then [ruleMsg 8] else []) ++
  (if s.serialization_modules.lookup "json" != some "shop.money.serializers"
   then [ruleMsg 9] else []) ++
  (if !((lookupD s.rest_framework "DEFAULT_RENDERER_CLASSES" []).contains
        "shop.rest.money.JSONRenderer")
   then [ruleMsg 10] else []) ++
  (if !((lookupD s.rest_framework "DEFAULT_FILTER_BACKENDS" []).contains
        "django_filters.rest_framework.DjangoFilterBackend")
   then [ruleMsg 11] else []) ++
  (if s.rest_auth_serializers.lookup "LOGIN_SERIALIZER"
        != some "shop.serializers.auth.LoginSerializer"
   then [ruleMsg 12] else []) ++
  (if !(s.cmsplugin_cascade_plugins.contains "shop.cascade") then [ruleMsg 13] else [])

/-- The fixed rule table of the Settings Auditor: `ruleOk s k` holds
exactly when the k-th check of `review_settings` (in source order)
would yield nothing.  The two context-processor rules (4 and 5) require
every default-backend template engine to carry the processor.  Indices
beyond the table are vacuously satisfied. -/
def ruleOk (s : Settings) : Nat → Bool
  | 0 => s.auth_user_model == some "email_auth.User"
  | 1 => s.staticfiles_finders.contains "sass_processor.finders.CssFinder"
  | 2 => (s.staticfiles_dirs.map Prod.fst).contains "node_modules"
  | 3 => substr "/node_modules/" s.node_modules_url
  | 4 => s.templates.all fun te =>
      !(te.backend == djangoBackend)
        || te.context_processors.contains "shop.context_processors.customer"
  | 5 => s.templates.all fun te =>
      !(te.backend == djangoBackend)
        || te.context_processors.contains "shop.context_processors.shop_settings"
  | 6 => s.sass_processor_include_dirs.any fun dir => substr "/node_modules" dir
  | 7 => s.coerce_decimal_to_string == some true
  | 8 => s.fsm_admin_force_permit == some true
  | 9 => s.serialization_modules.lookup "json" == some "shop.money.serializers"
  | 10 => (lookupD s.rest_framework "DEFAULT_RENDERER_CLASSES" []).contains
      "shop.rest.money.JSONRenderer"
  | 11 => (lookupD s.rest_framework "DEFAULT_FILTER_BACKENDS" []).contains
      "django_filters.rest_framework.DjangoFilterBackend"
  | 12 => s.rest_auth_serializers.lookup "LOGIN_SERIALIZER"
      == some "shop.serializers.auth.LoginSerializer"
  | 13 => s.cmsplugin_cascade_plugins.contains "shop.cascade"
  | _ + 14 => true

/-- A configuration satisfying every rule of the table. -/
def goodSettings : Settings where
  auth_user_model := some "email_auth.User"
  staticfiles_finders := ["sass_processor.finders.CssFinder"]
  staticfiles_dirs := [("node_modules", "/proj/node_modules")]
  node_modules_url := "/static/node_modules/"
  templates := [{ backend := djangoBackend,
                  context_processors := ["shop.context_processors.customer",
                                         "shop.context_processors.shop_settings"] }]
  sass_processor_include_dirs := ["/proj/node_modules"]
  coerce_decimal_to_string := some true
  fsm_admin_force_permit := some true
  serialization_modules := [("json", "shop.money.serializers")]
  rest_framework := [("DEFAULT_RENDERER_CLASSES", ["shop.rest.money.JSONRenderer"]),
                     ("DEFAULT_FILTER_BACKENDS",
                      ["django_filters.rest_framework.DjangoFilterBackend"])]
  rest_auth_serializers := [("LOGIN_SERIALIZER", "shop.serializers.auth.LoginSerializer")]
  cmsplugin_cascade_plugins := ["shop.cascade"]

/-- `goodSettings`, except that `AUTH_USER_MODEL` is wrong: exactly rule
0 is violated. -/
def badAuthSettings : Settings :=
  { goodSettings with auth_user_model := some "auth.User" }

/-- `goodSettings`, except that two template engines use the default
Django backend and both miss the `customer` context processor: exactly
rule 4 of the table is violated, yet the loop of source lines 261-268
yields one diagnostic per engine. -/
def twoEngineSettings : Settings :=
  { goodSettings with
      templates := [{ backend := djangoBackend,
                      context_processors := ["shop.context_processors.shop_settings"] },
                    { backend := djangoBackend,
                      context_processors := ["shop.context_processors.shop_settings"] }] }

/-! ### CMS state model

The django-cms objects the command reads and writes: plugin instances,
placeholders, pages, the apphook pool, the plugin pool, the configured
public languages, `settings.CMS_TEMPLATES` and the product store. -/

/-- One CMS plugin instance: its type name, language tag and the
glossary of its bound plugin. -/
structure CMSPlugin where
  plugin_type : String
  language : String
  glossary : List (String × GVal)
deriving DecidableEq, Repr

/-- A named content slot of a page holding plugin instances
(`placeholder.cmsplugin_set` is the flat list `plugins`). -/
structure Placeholder where
  slot : String
  plugins : List CMSPlugin
deriving DecidableEq, Repr

/-- One CMS page.  `is_public` marks a published page (membership in
`Page.objects.public()`); `application_urls` is the name of the bound
apphook class (`""` when none); `languages` is `page.get_languages()`;
`url` is `page.get_absolute_url()`. -/
structure Page where
  title : String
  reverse_id : String
  application_urls : String
  is_public : Bool
  languages : List String
  placeholders : List Placeholder
  url : String
deriving DecidableEq, Repr

/-- A registered apphook instance of the apphook pool.  `name` is its
class name (the key under which the pool stores it and the string
stored in `page.application_urls`); `bases` are the class names of its
method-resolution order, its own name included, so that
`isinstance(apphook, B)` is `B ∈ bases`. -/
structure Apphook where
  name : String
  bases : List String
deriving DecidableEq, Repr

/-- The framework state the command operates on: the page tree, the
apphook pool, the plugin pool (type name to verbose name), the public
languages, `settings.CMS_TEMPLATES` (template names) and the product
store with its page assignments. -/
structure Env where
  pages : List Page
  apphooks : List Apphook
  plugin_pool : List (String × String)
  public_languages : List String
  cms_templates : List String
  products : List String
  product_pages : List (Nat × String)
deriving DecidableEq, Repr

/-- Message template of source line 165. -/
def apphookRegisterTpl : List FmtPart :=
  [FmtPart.lit "The project must register an AppHook inheriting from '",
   FmtPart.field "apphook_name", FmtPart.lit "'"]

/-- Message template of source line 175. -/
def missingPageTpl : List FmtPart :=
  [FmtPart.lit "There should be a published CMS page with a reference ID: '",
   FmtPart.field "reverse_id", FmtPart.lit "'."]

/-- Message template of source line 181.  Note its placeholder is named
`app_hook`, while line 182 passes the keyword `apphook_name`. -/
def apphookMismatchTpl : List FmtPart :=
  [FmtPart.lit "Page on URL '", FmtPart.field "url",
   FmtPart.lit "' must be configured to use Application inheriting from '",
   FmtPart.field "app_hook", FmtPart.lit "'."]

/-- Message template of source line 186. -/
def noPluginTpl : List FmtPart :=
  [FmtPart.lit "Page on URL '", FmtPart.field "url",
   FmtPart.lit "' does not contain any plugin."]

/-- Message template of source line 193. -/
def pluginRequiredTpl : List FmtPart :=
  [FmtPart.lit "Page on URL '", FmtPart.field "url",
   FmtPart.lit "' shall contain a plugin named '", FmtPart.field "plugin_name",
   FmtPart.lit "'."]

/-- Message template of source line 198. -/
def misconfiguredTpl : List FmtPart :=
  [FmtPart.lit "Plugin named '", FmtPart.field "plugin_name",
   FmtPart.lit "' on page with URL '", FmtPart.field "url",
   FmtPart.lit "' is misconfigured."]

/-- `Command.get_installed_apphook` (source lines 156-166): scan the
apphook pool for the first instance of a class inheriting from the
named base (the `import_string` of the base is modelled as resolving
the name); raise `MissingAppHook` when none is registered. -/
def get_installed_apphook (env : Env) (base_apphook_name : String) :
    Except PyError Apphook :=
  match env.apphooks.find? (fun a => a.bases.contains base_apphook_name) with
  | some apphook => Except.ok apphook
  | none =>
      (pyFormat apphookRegisterTpl [("apphook_name", base_apphook_name)]).bind
        fun m => Except.error (PyError.missingAppHook m)

/-- The `for language in page.get_languages()` loop of
`Command.check_page_content` (source lines 190-199): for each language
the first plugin of the required type must exist and every pair of the
required subset must appear among its glossary items. -/
def checkPluginForLanguages (url plugin_name plugin_type : String)
    (subset : List (String × GVal)) (placeholder : Placeholder) :
    List String → Except PyError Unit
  | [] => Except.ok ()
  | language :: rest =>
      match (placeholder.plugins.filter fun pl =>
          pl.plugin_type == plugin_type && pl.language == language).head? with
      | none =>
          (pyFormat pluginRequiredTpl
              [("url", url), ("plugin_name", plugin_name)]).bind
            fun m => Except.error (PyError.missingPlugin m)
      | some plugin =>
          if !(subset.all fun item => decide (item ∈ plugin.glossary)) then
            (pyFormat misconfiguredTpl
                [("url", url), ("plugin_name", plugin_name)]).bind
              fun m => Except.error (PyError.missingPlugin m)
          else
            checkPluginForLanguages url plugin_name plugin_type subset placeholder rest

/-- `Command.check_page_content` (source lines 168-199): locate the
published page with the given `reverse_id`, check its bound apphook
against the installed one when a base name is required, locate the
`Main Content` placeholder, and run the per-language plugin check. -/
def check_page_content (env : Env) (reverse_id : String)
    (base_apphook_name : Option String) (plugin_type : String)
    (subset : List (String × GVal)) : Except PyError Unit :=
  match (env.pages.filter fun p => p.is_public && p.reverse_id == reverse_id).head? with
  | none =>
      (pyFormat missingPageTpl [("reverse_id", reverse_id)]).bind
        fun m => Except.error (PyError.missingPage m)
  | some page =>
      ((match base_apphook_name with
       | none => Except.ok ()
       | some bah =>
          (get_installed_apphook env bah).bind fun apphook =>
            if (env.apphooks.find? fun a => a.name == page.application_urls)
                ≠ some apphook then
              (pyFormat apphookMismatchTpl
                  [("url", page.url), ("apphook_name", bah)]).bind
                fun m => Except.error (PyError.missingAppHook m)
            else Except.ok () : Except PyError Unit)).bind fun _ =>
      match (page.placeholders.filter fun ph => ph.slot == "Main Content").head? with
      | none =>
          (pyFormat noPluginTpl [("url", page.url)]).bind
            fun m => Except.error (PyError.missingPlugin m)
      | some placeholder =>
          match env.plugin_pool.lookup plugin_type with
          | none => Except.error (PyError.keyError plugin_type)
          | some plugin_name =>
              checkPluginForLanguages page.url plugin_name plugin_type subset
                placeholder page.languages

/-! ### Page repair (`create_page_structure`, `add_plugin`,
`publish_in_all_languages`, `assign_all_products_to_page`) -/

/-- Reference to a plugin created by `cms.api.add_plugin`: the page it
sits on (index into `Env.pages`) and its language; its placeholder is
always the page's `Main Content` slot. -/
structure LeafRef where
  pageIdx : Nat
  language : String
deriving DecidableEq, Repr

/-- Model of `cms.api.create_page`: a fresh draft page carrying the
`Main Content` placeholder of the default template, one title language
and the optional bound apphook. -/
def freshPage (title reverse_id application_urls language : String) : Page where
  title := title
  reverse_id := reverse_id
  application_urls := application_urls
  is_public := false
  languages := [language]
  placeholders := [{ slot := "Main Content", plugins := [] }]
  url := "/" ++ title

/-- Model of `cms.api.add_plugin`: append a plugin instance to the
`Main Content` placeholder of the page at `pageIdx`. -/
def cmsAddPlugin (env : Env) (pageIdx : Nat) (plugin_type language : String)
    (glossary : List (String × GVal)) : Env :=
  match env.pages.get? pageIdx with
  | none => env
  | some pg =>
      let phs := pg.placeholders.map fun ph =>
        if ph.slot == "Main Content" then
          { ph with plugins := ph.plugins ++
              [{ plugin_type := plugin_type, language := language, glossary := glossary }] }
        else ph
      { env with pages := env.pages.set pageIdx { pg with placeholders := phs } }

/-- `Command.create_page_structure` (source lines 201-221): read the
default template, resolve the optional apphook, create the page in the
first public language and build the container/row/column skeleton in
its `Main Content` placeholder; return the column plugin. -/
def create_page_structure (env : Env) (title reverse_id : String)
    (base_apphook_name : Option String) : Except PyError (Env × LeafRef) := do
  let _template ← match env.cms_templates.head? with
    | some t => Except.ok t
    | none => Except.error PyError.indexError
  let application_urls ← match base_apphook_name with
    | some bah => (get_installed_apphook env bah).map fun a => a.name
    | none => Except.ok ""
  let language ← match env.public_languages.head? with
    | some l => Except.ok l
    | none => Except.error PyError.indexError
  let pageIdx := env.pages.length
  let env := { env with
    pages := env.pages ++ [freshPage title reverse_id application_urls language] }
  let env := cmsAddPlugin env pageIdx "BootstrapContainerPlugin" language
    [("breakpoints", GVal.strList ["xs", "sm", "md", "lg", "xl"]),
     ("fluid", GVal.noneVal)]
  let env := cmsAddPlugin env pageIdx "BootstrapRowPlugin" language []
  let env := cmsAddPlugin env pageIdx "BootstrapColumnPlugin" language
    [("xs-column-width", GVal.str "col")]
  Except.ok (env, { pageIdx := pageIdx, language := language })

/-- `Command.add_plugin` (source lines 223-226): attach a plugin of the
given type under the leaf plugin, in the leaf's placeholder and
language; returns the created plugin. -/
def add_plugin (env : Env) (leaf : LeafRef) (plugin_type : String)
    (glossary : List (String × GVal)) : Env × LeafRef :=
  (cmsAddPlugin env leaf.pageIdx plugin_type leaf.language glossary, leaf)

/-- Model of `cms.api.copy_plugins_to_language`: duplicate the plugins
of the source language into the target language, placeholder by
placeholder. -/
def copyPluginsToLanguage (pg : Page) (fromLang toLang : String) : Page :=
  { pg with placeholders := pg.placeholders.map fun ph =>
      { ph with plugins := ph.plugins ++
          ((ph.plugins.filter fun pl => pl.language == fromLang).map
            fun pl => { pl with language := toLang }) } }

/-- `Command.publish_in_all_languages` (source lines 228-237): create a
title for every further public language, copy the plugins of the first
language into it, and publish the page in every language. -/
def publish_in_all_languages (env : Env) (pageIdx : Nat) : Env :=
  match env.pages.get? pageIdx with
  | none => env
  | some pg =>
      let languages := env.public_languages
      let pg := languages.tail.foldl
        (fun acc lang =>
          copyPluginsToLanguage { acc with languages := acc.languages ++ [lang] }
            (languages.headD "") lang)
        pg
      { env with pages := env.pages.set pageIdx { pg with is_public := true } }

/-- `Command.assign_all_products_to_page` (source lines 239-244): create
one `ProductPageModel` row per product for the page. -/
def assign_all_products_to_page (env : Env) (pageIdx : Nat) : Env :=
  { env with product_pages :=
      env.product_pages ++ env.products.map fun pr => (pageIdx, pr) }

/-! ### `Command.check_pages` (source lines 93-154) -/

/-- One entry of the `page_attributes` table of source lines 113-124. -/
structure PageRequirement where
  title : String
  reverse_id : String
  base_apphook_name : Option String
  plugin_type : String
  subset : List (String × GVal)
deriving DecidableEq, Repr

/-- The fixed `page_attributes` table of source lines 113-124. -/
def page_attributes : List PageRequirement :=
  [⟨"Search", "shop-search-product", some "CatalogSearchCMSApp",
    "ShopSearchResultsPlugin", []⟩,
   ⟨"Cart", "shop-cart", none, "ShopCartPlugin",
    [("render_type", GVal.str "editable")]⟩,
   ⟨"Watch-List", "shop-watch-list", none, "ShopCartPlugin",
    [("render_type", GVal.str "watch")]⟩,
   ⟨"Your Orders", "shop-order", some "OrderApp", "ShopOrderViewsPlugin", []⟩,
   ⟨"Login", "shop-login", none, "ShopAuthenticationPlugin",
    [("form_type", GVal.str "login")]⟩,
   ⟨"Register Customer", "shop-register-customer", none, "ShopAuthenticationPlugin",
    [("form_type", GVal.str "register-user")]⟩,
   ⟨"Your Personal Details", "shop-customer-details", none, "CustomerFormPlugin", []⟩,
   ⟨"Change Password", "shop-password-change", none, "ShopAuthenticationPlugin",
    [("form_type", GVal.str "password-change")]⟩,
   ⟨"Request Password Reset", "password-reset-request", none,
    "ShopAuthenticationPlugin", [("form_type", GVal.str "password-reset-request")]⟩,
   ⟨"Confirm Password Reset", "password-reset-confirm", some "PasswordResetApp",
    "ShopAuthenticationPlugin", [("form_type", GVal.str "password-reset-confirm")]⟩]

/-- Template of the `"Created CMS page titled '{0}'"` message of source
line 133 (`{0}` is the positional title argument). -/
def createdTpl : List FmtPart :=
  [FmtPart.lit "Created CMS page titled '", FmtPart.field "0", FmtPart.lit "'"]

/-- The diagnostic of source line 111. -/
def catalogMissingMsg : String :=
  "There should be at least one published CMS page configured to use an Application inheriting from 'CatalogListCMSApp'."

/-- The diagnostic of source line 154. -/
def checkoutMissingMsg : String :=
  "There should be at least one published CMS page containing a 'Proceed Button Plugin' for purchasing the cart's content."

/-- The body of the `for attribs in page_attributes` loop of source
lines 125-137: run `check_page_content`; on `MissingPage` either repair
(when `add_missing`) or yield the message; on any other `CommandError`
yield the message; any other exception propagates out of the
generator. -/
def checkPagesStep (add_missing : Bool) (acc : List String × Env)
    (attr : PageRequirement) : Except PyError (List String × Env) :=
  let msgs := acc.1
  let env := acc.2
  match check_page_content env attr.reverse_id attr.base_apphook_name
      attr.plugin_type attr.subset with
  | Except.ok _ => Except.ok (msgs, env)
  | Except.error (PyError.missingPage m) =>
      if add_missing then
        (create_page_structure env attr.title attr.reverse_id
            attr.base_apphook_name).bind fun (env, leaf) =>
          let (env, _) := add_plugin env leaf attr.plugin_type attr.subset
          let env := publish_in_all_languages env leaf.pageIdx
          (pyFormat createdTpl [("0", attr.title)]).map fun created =>
            (msgs ++ [created], env)
      else Except.ok (msgs ++ [m], env)
  | Except.error (PyError.missingAppHook m) => Except.ok (msgs ++ [m], env)
  | Except.error (PyError.missingPlugin m) => Except.ok (msgs ++ [m], env)
  | Except.error e => Except.error e

/-- Does this glossary carry a purchase-now link?  Mirrors source line
143: `isinstance(link, dict) and link.get('type') == 'PURCHASE_NOW'`. -/
def purchaseLink (glossary : List (String × GVal)) : Bool :=
  match glossary.lookup "link" with
  | some (GVal.strDict d) => d.lookup "type" == some "PURCHASE_NOW"
  | _ => false

/-- The queryset of source line 141: every plugin of the given type and
language sitting on a published page. -/
def publishedPluginsOfType (env : Env) (plugin_type language : String) :
    List CMSPlugin :=
  (env.pages.filter fun p => p.is_public).flatMap fun p =>
    p.placeholders.flatMap fun ph =>
      ph.plugins.filter fun pl =>
        pl.plugin_type == plugin_type && pl.language == language

/-- `Command.check_pages` (source lines 93-154): the catalog-page check,
the tabled page checks, and the proceed-button check, yielding one
diagnostic per finding (or per repair).  Returns the yielded messages
and the final framework state; an uncaught exception aborts the
generator and is returned as `Except.error`. -/
def check_pages (env : Env) (add_missing : Bool) :
    Except PyError (List String × Env) := do
  let apphook ← get_installed_apphook env "CatalogListCMSApp"
  let catalog_pages := env.pages.filter fun p =>
    p.is_public && p.application_urls == apphook.name
  let (msgs, env) ←
    if catalog_pages.isEmpty then
      if add_missing then do
        let (env, leaf) ← create_page_structure env "Catalog" "" (some apphook.name)
        let (env, _) := add_plugin env leaf "ShopCatalogPlugin" []
        let env := publish_in_all_languages env leaf.pageIdx
        let env := assign_all_products_to_page env leaf.pageIdx
        Except.ok (["Created CMS page titled 'Catalog'"], env)
      else
        Except.ok ([catalogMissingMsg], env)
    else Except.ok (([] : List String), env)
  let (msgs, env) ← page_attributes.foldlM (checkPagesStep add_missing) (msgs, env)
  let language ← match env.public_languages.head? with
    | some l => Except.ok l
    | none => Except.error PyError.indexError
  let found := (publishedPluginsOfType env "ShopProceedButton" language).any
    fun pl => purchaseLink pl.glossary
  if found then
    Except.ok (msgs, env)
  else
    if add_missing then do
      let (env, column) ← create_page_structure env "Checkout" "" none
      let (env, formsPlugin) := add_plugin env column "ValidateSetOfFormsPlugin" []
      let glossary := [("button_type", GVal.str "btn-success"),
                       ("link", GVal.strDict [("type", "PURCHASE_NOW")]),
                       ("link_content", GVal.str "Purchase Now")]
      let (env, _) := add_plugin env formsPlugin "ShopProceedButton" glossary
      let env := publish_in_all_languages env formsPlugin.pageIdx
      Except.ok (msgs ++ ["Created CMS page titled 'Checkout'"], env)
    else
      Except.ok (msgs ++ [checkoutMissingMsg], env)

/-- Is this one of the three `CommandError` failures the loop of
`check_pages` catches? -/
def tabledError : PyError → Bool
  | PyError.missingPage _ => true
  | PyError.missingAppHook _ => true
  | PyError.missingPlugin _ => true
  | _ => false

/-- `tabledError` lifted to a check result (success counts as fine). -/
def tabledErrorRes : Except PyError Unit → Bool
  | Except.ok _ => true
  | Except.error e => tabledError e

/-- The message carried by a failure. -/
def errMsg : PyError → String
  | PyError.missingPage m => m
  | PyError.missingAppHook m => m
  | PyError.missingPlugin m => m
  | PyError.keyError k => k
  | PyError.indexError => ""

/-- The diagnostics the `page_attributes` loop yields for one table
entry in report mode (no repair): nothing on success, the failure
message on a caught `CommandError`. -/
def entryDiag (env : Env) (attr : PageRequirement) : List String :=
  match check_page_content env attr.reverse_id attr.base_apphook_name
      attr.plugin_type attr.subset with
  | Except.ok _ => []
  | Except.error (PyError.missingPage m) => [m]
  | Except.error (PyError.missingAppHook m) => [m]
  | Except.error (PyError.missingPlugin m) => [m]
  | Except.error _ => []

/-- The diagnostics of the catalog check (source lines 102-111) in
report mode. -/
def catalogDiag (env : Env) (apphook : Apphook) : List String :=
  if (env.pages.filter fun p =>
      p.is_public && p.application_urls == apphook.name).isEmpty
  then [catalogMissingMsg] else []

/-- The diagnostics of the proceed-button check (source lines 140-154)
in report mode. -/
def checkoutDiag (env : Env) (language : String) : List String :=
  if (publishedPluginsOfType env "ShopProceedButton" language).any
      (fun pl => purchaseLink pl.glossary)
  then [] else [checkoutMissingMsg]

/-- The messages of a `check_pages` run, `none` when the run aborted
with an uncaught exception. -/
def msgsOf : Except PyError (List String × Env) → Option (List String)
  | Except.ok (msgs, _) => some msgs
  | Except.error _ => none

/-! ### Concrete stores -/

/-- The project apphook registered for `CatalogListCMSApp`. -/
def catalogApphook : Apphook := ⟨"CatalogApp", ["CatalogApp", "CatalogListCMSApp"]⟩

/-- An apphook pool registering one hook per base the command needs. -/
def stdApphooks : List Apphook :=
  [catalogApphook,
   ⟨"SearchApp", ["SearchApp", "CatalogSearchCMSApp"]⟩,
   ⟨"OrderAppImpl", ["OrderAppImpl", "OrderApp"]⟩,
   ⟨"PasswordResetAppImpl", ["PasswordResetAppImpl", "PasswordResetApp"]⟩]

/-- A plugin pool registering every plugin type the command touches. -/
def stdPluginPool : List (String × String) :=
  [("ShopSearchResultsPlugin", "Search Results"),
   ("ShopCartPlugin", "Cart"),
   ("ShopOrderViewsPlugin", "Order Views"),
   ("ShopAuthenticationPlugin", "Authentication"),
   ("CustomerFormPlugin", "Customer Form"),
   ("ShopCatalogPlugin", "Catalog"),
   ("ShopProceedButton", "Proceed Button"),
   ("ValidateSetOfFormsPlugin", "Validate Set of Forms"),
   ("BootstrapContainerPlugin", "Container"),
   ("BootstrapRowPlugin", "Row"),
   ("BootstrapColumnPlugin", "Column")]

/-- A store with no CMS pages at all, one public language and all
required apphooks and plugins registered. -/
def emptyStoreEnv : Env where
  pages := []
  apphooks := stdApphooks
  plugin_pool := stdPluginPool
  public_languages := ["en"]
  cms_templates := ["INHERIT"]
  products := ["demo-product"]
  product_pages := []

/-- The store after a first `check-pages --add-missing` run on the
empty store. -/
def repairedEnv : Env :=
  match check_pages emptyStoreEnv true with
  | Except.ok (_, env) => env
  | Except.error _ => emptyStoreEnv

/-- A published cart page whose `Main Content` placeholder holds no
plugin at all: `check_page_content` fails on it with `MissingPlugin`,
which the repair run does not fix. -/
def brokenCartPage : Page where
  title := "Cart"
  reverse_id := "shop-cart"
  application_urls := ""
  is_public := true
  languages := ["en"]
  placeholders := [{ slot := "Main Content", plugins := [] }]
  url := "/cart"

/-- The empty store plus the broken pre-existing cart page. -/
def brokenCartEnv : Env := { emptyStoreEnv with pages := [brokenCartPage] }

/-- `brokenCartEnv` after a first `check-pages --add-missing` run. -/
def brokenCartRepairedEnv : Env :=
  match check_pages brokenCartEnv true with
  | Except.ok (_, env) => env
  | Except.error _ => brokenCartEnv

/-- A store whose apphook pool registers no `CatalogListCMSApp`
subclass at all. -/
def noCatalogEnv : Env :=
  { emptyStoreEnv with apphooks := [⟨"SearchApp", ["SearchApp", "CatalogSearchCMSApp"]⟩] }

/-- A widget configured `{"a": 1, "b": 2}`. -/
def widgetPluginA : CMSPlugin where
  plugin_type := "WidgetPlugin"
  language := "en"
  glossary := [("a", GVal.num 1), ("b", GVal.num 2)]

/-- A widget configured `{"a": 2}`. -/
def widgetPluginB : CMSPlugin where
  plugin_type := "WidgetPlugin"
  language := "en"
  glossary := [("a", GVal.num 2)]

/-- The `Main Content` placeholder holding `widgetPluginA`. -/
def widgetPhA : Placeholder := { slot := "Main Content", plugins := [widgetPluginA] }

/-- The `Main Content` placeholder holding `widgetPluginB`. -/
def widgetPhB : Placeholder := { slot := "Main Content", plugins := [widgetPluginB] }

/-- Published page `/a` carrying the `{"a": 1, "b": 2}` widget. -/
def widgetPageA : Page where
  title := "A"
  reverse_id := "page-a"
  application_urls := ""
  is_public := true
  languages := ["en"]
  placeholders := [widgetPhA]
  url := "/a"

/-- Published page `/b` carrying the `{"a": 2}` widget. -/
def widgetPageB : Page where
  title := "B"
  reverse_id := "page-b"
  application_urls := ""
  is_public := true
  languages := ["en"]
  placeholders := [widgetPhB]
  url := "/b"

/-- Two published pages, each holding one `WidgetPlugin` in every
language: the one on `/a` is configured `{"a": 1, "b": 2}`, the one on
`/b` is configured `{"a": 2}`. -/
def widgetEnv : Env where
  pages := [widgetPageA, widgetPageB]
  apphooks := []
  plugin_pool := [("WidgetPlugin", "Widget")]
  public_languages := ["en"]
  cms_templates := ["INHERIT"]
  products := []
  product_pages := []

/-- A store with a published search page bound to apphook `OtherApp`
while the hook registered for `CatalogSearchCMSApp` is `SearchApp`: the
page's bound handler differs from the installed one. -/
def mismatchEnv : Env where
  pages :=
    [{ title := "Search", reverse_id := "shop-search-product",
       application_urls := "OtherApp", is_public := true, languages := ["en"],
       placeholders := [{ slot := "Main Content", plugins := [] }],
       url := "/search" }]
  apphooks := [⟨"OtherApp", ["OtherApp"]⟩, ⟨"SearchApp", ["SearchApp", "CatalogSearchCMSApp"]⟩]
  plugin_pool := stdPluginPool
  public_languages := ["en"]
  cms_templates := ["INHERIT"]
  products := []
  product_pages := []

/-- Three demo customers: one active registered, one expired guest, one
anonymous. -/
def demoCustomers : List Customer :=
  [⟨true, false, true, false, false, false⟩,
   ⟨false, false, false, true, false, true⟩,
   ⟨false, false, false, false, true, false⟩]

/-! ## Theorems -/

/-! ### Customer census lemmas -/

lemma customers_step_eq (delete_expired : Bool) (d : CensusData)
    (store : List Customer) (c : Customer) :
    customers_step delete_expired (d, store) c =
      ({ total := d.total + 1,
         anonymous := d.anonymous
           + cond (!c.is_registered && !c.is_guest && c.is_anonymous) 1 0,
         active := d.active + cond c.is_active 1 0,
         staff := d.staff + cond c.is_staff 1 0,
         guests := d.guests + cond (!c.is_registered && c.is_guest) 1 0,
         registered := d.registered + cond c.is_registered 1 0,
         expired := d.expired + cond c.is_expired 1 0 },
       if delete_expired && c.is_expired then store else store ++ [c]) := by
  rcases c with ⟨a, st, r, g, an, e⟩
  cases delete_expired <;> cases a <;> cases st <;> cases r <;> cases g <;>
    cases an <;> cases e <;> rfl

lemma customers_fold_data (delete_expired : Bool) (cs : List Customer) :
    ∀ (d : CensusData) (store : List Customer),
    (cs.foldl (customers_step delete_expired) (d, store)).1 =
      { total := d.total + cs.length,
        anonymous := d.anonymous
          + cs.countP (fun c => !c.is_registered && !c.is_guest && c.is_anonymous),
        active := d.active + cs.countP (fun c => c.is_active),
        staff := d.staff + cs.countP (fun c => c.is_staff),
        guests := d.guests + cs.countP (fun c => !c.is_registered && c.is_guest),
        registered := d.registered + cs.countP (fun c => c.is_registered),
        expired := d.expired + cs.countP (fun c => c.is_expired) } := by
  induction cs with
  | nil => intro d store; rcases d with ⟨t, an, ac, st, gu, re, ex⟩; rfl
  | cons c rest ih =>
      intro d store
      rw [List.foldl_cons, customers_step_eq, ih]
      rcases c with ⟨a, st2, r, g, an2, e⟩
      cases a <;> cases st2 <;> cases r <;> cases g <;> cases an2 <;> cases e <;>
        simp [List.countP_cons, CensusData.mk.injEq] <;> omega

lemma customers_fold_store_false (cs : List Customer) :
    ∀ (d : CensusData) (store : List Customer),
    (cs.foldl (customers_step false) (d, store)).2 = store ++ cs := by
  induction cs with
  | nil => intro d store; simp
  | cons c rest ih =>
      intro d store
      rw [List.foldl_cons, customers_step_eq]
      simp [ih]

lemma customers_fold_store_true (cs : List Customer) :
    ∀ (d : CensusData) (store : List Customer),
    (cs.foldl (customers_step true) (d, store)).2
      = store ++ cs.filter (fun c => !c.is_expired) := by
  induction cs with
  | nil => intro d store; simp
  | cons c rest ih =>
      intro d store
      rw [List.foldl_cons, customers_step_eq]
      cases he : c.is_expired <;> simp [he, ih, List.filter_cons]

lemma pyFormat_summary (d : CensusData) :
    pyFormat summaryTpl (summaryArgs d) = Except.ok (renderSummary d) := by
  rfl

lemma classify_eq_registered (c : Customer) :
    decide (classify c = some CustomerCat.registered) = c.is_registered := by
  rcases c with ⟨a, st, r, g, an, e⟩
  cases r <;> cases g <;> cases an <;> rfl

lemma classify_eq_guest (c : Customer) :
    decide (classify c = some CustomerCat.guest)
      = (!c.is_registered && c.is_guest) := by
  rcases c with ⟨a, st, r, g, an, e⟩
  cases r <;> cases g <;> cases an <;> rfl

lemma classify_eq_anonymous (c : Customer) :
    decide (classify c = some CustomerCat.anonymous)
      = (!c.is_registered && !c.is_guest && c.is_anonymous) := by
  rcases c with ⟨a, st, r, g, an, e⟩
  cases r <;> cases g <;> cases an <;> rfl

lemma countP_three_of_exactlyOne (cs : List Customer)
    (h : ∀ c ∈ cs, exactlyOneCat c) :
    cs.countP (fun c => !c.is_registered && !c.is_guest && c.is_anonymous)
      + cs.countP (fun c => !c.is_registered && c.is_guest)
      + cs.countP (fun c => c.is_registered) = cs.length := by
  induction cs with
  | nil => rfl
  | cons c rest ih =>
      have hc := h c (List.mem_cons_self c rest)
      have hrest := ih fun c2 hc2 => h c2 (List.mem_cons_of_mem _ hc2)
      simp only [List.countP_cons, List.length_cons]
      rcases c with ⟨a, st, r, g, an, e⟩
      simp only [exactlyOneCat] at hc
      cases r <;> cases g <;> cases an <;> simp at hc ⊢ <;> omega

lemma length_filter_not_expired_add_countP (cs : List Customer) :
    (cs.filter fun c => !c.is_expired).length
      + cs.countP (fun c => c.is_expired) = cs.length := by
  induction cs with
  | nil => rfl
  | cons c rest ih =>
      cases he : c.is_expired <;>
        simp [List.filter_cons, List.countP_cons, he] <;> omega

/-- Claim C6: for every sequence of customer records, the census
classifies each customer into at most one of
registered/guest/anonymous, following the priority order registered
over guest over anonymous of the `if/elif` chain — unconditionally, the
three tallies are exactly the counts of customers whose
priority-classification lands in each category (a multi-flag customer
is tallied only under its highest-priority flag); when additionally
every customer matches exactly one category, the printed tallies
satisfy `total = anonymous + guests + registered`; and the summary is
the single line rendering the seven integer tallies. -/
theorem customers_census_consistent (delete_expired : Bool) (cs : List Customer) :
    (customers delete_expired cs).1.total = cs.length
    ∧ (customers delete_expired cs).1.registered
        = cs.countP (fun c => decide (classify c = some CustomerCat.registered))
    ∧ (customers delete_expired cs).1.guests
        = cs.countP (fun c => decide (classify c = some CustomerCat.guest))
    ∧ (customers delete_expired cs).1.anonymous
        = cs.countP (fun c => decide (classify c = some CustomerCat.anonymous))
    ∧ ((∀ c ∈ cs, exactlyOneCat c) →
        (customers delete_expired cs).1.total
          = (customers delete_expired cs).1.anonymous
              + (customers delete_expired cs).1.guests
              + (customers delete_expired cs).1.registered)
    ∧ (customers delete_expired cs).2.2
        = Except.ok (renderSummary (customers delete_expired cs).1) := by
  have hdata := customers_fold_data delete_expired cs
    { total := 0, anonymous := 0, active := 0, staff := 0, guests := 0,
      registered := 0, expired := 0 } []
  refine ⟨?_, ?_, ?_, ?_, ?_, ?_⟩
  · show (cs.foldl (customers_step delete_expired) _).1.total = cs.length
    rw [hdata]
    simp
  · show (cs.foldl (customers_step delete_expired) _).1.registered = _
    rw [hdata]
    simp [classify_eq_registered]
  · show (cs.foldl (customers_step delete_expired) _).1.guests = _
    rw [hdata]
    simp [classify_eq_guest]
  · show (cs.foldl (customers_step delete_expired) _).1.anonymous = _
    rw [hdata]
    simp [classify_eq_anonymous]
  · intro h
    show (cs.foldl (customers_step delete_expired)
        ({ total := 0, anonymous := 0, active := 0, staff := 0, guests := 0,
           registered := 0, expired := 0 }, [])).1.total
      = (cs.foldl (customers_step delete_expired)
          ({ total := 0, anonymous := 0, active := 0, staff := 0, guests := 0,
             registered := 0, expired := 0 }, [])).1.anonymous
        + (cs.foldl (customers_step delete_expired)
            ({ total := 0, anonymous := 0, active := 0, staff := 0, guests := 0,
               registered := 0, expired := 0 }, [])).1.guests
        + (cs.foldl (customers_step delete_expired)
            ({ total := 0, anonymous := 0, active := 0, staff := 0, guests := 0,
               registered := 0, expired := 0 }, [])).1.registered
    rw [hdata]
    have h3 := countP_three_of_exactlyOne cs h
    simp only [Nat.zero_add]
    omega
  · exact pyFormat_summary ((customers delete_expired cs).1)

/-- Witness for C6 at three concrete customers, one per category. -/
theorem customers_census_consistent_witness :
    (customers false demoCustomers).1.total
      = (customers false demoCustomers).1.anonymous
          + (customers false demoCustomers).1.guests
          + (customers false demoCustomers).1.registered :=
  (customers_census_consistent false demoCustomers).2.2.2.2.1 (by decide)

/-- Claim C7: the expired tally counts every expired customer whether or
not deletion is requested; without `--delete-expired` every record
survives; with it exactly the expired records are removed, so the store
shrinks by the prior expired count and no non-expired customer is ever
removed. -/
theorem customers_expired_deletion (cs : List Customer) :
    (customers true cs).1.expired = cs.countP (fun c => c.is_expired)
    ∧ (customers false cs).1.expired = cs.countP (fun c => c.is_expired)
    ∧ (customers false cs).2.1 = cs
    ∧ (customers true cs).2.1 = cs.filter (fun c => !c.is_expired)
    ∧ (customers true cs).2.1.length + (customers true cs).1.expired = cs.length := by
  have htrue := customers_fold_data true cs
    { total := 0, anonymous := 0, active := 0, staff := 0, guests := 0,
      registered := 0, expired := 0 } []
  have hfalse := customers_fold_data false cs
    { total := 0, anonymous := 0, active := 0, staff := 0, guests := 0,
      registered := 0, expired := 0 } []
  refine ⟨?_, ?_, ?_, ?_, ?_⟩
  · show (cs.foldl (customers_step true) _).1.expired = _
    rw [htrue]
    simp
  · show (cs.foldl (customers_step false) _).1.expired = _
    rw [hfalse]
    simp
  · show (cs.foldl (customers_step false) _).2 = cs
    rw [customers_fold_store_false]
    simp
  · show (cs.foldl (customers_step true) _).2 = _
    rw [customers_fold_store_true]
    simp
  · show (cs.foldl (customers_step true) _).2.length
        + (cs.foldl (customers_step true) _).1.expired = cs.length
    rw [customers_fold_store_true, htrue]
    simpa using length_filter_not_expired_add_countP cs

/-- Claim C10: with deletion requested, every tally of the summary still
includes the customers deleted in the same run: the tallies and the
printed line agree with those of a run without deletion, i.e. they
reflect the pre-deletion state of the store. -/
theorem customers_counts_precede_deletion (cs : List Customer) :
    (customers true cs).1 = (customers false cs).1
    ∧ (customers true cs).2.2 = (customers false cs).2.2 := by
  have hdata : (customers true cs).1 = (customers false cs).1 := by
    show (cs.foldl (customers_step true) _).1 = (cs.foldl (customers_step false) _).1
    rw [customers_fold_data, customers_fold_data]
  refine ⟨hdata, ?_⟩
  show pyFormat summaryTpl (summaryArgs (customers true cs).1)
      = pyFormat summaryTpl (summaryArgs (customers false cs).1)
  rw [hdata]

/-! ### Settings review lemmas -/

lemma templateDiag_eq_nil (te : TemplateEngine)
    (h4 : (!(te.backend == djangoBackend)
        || te.context_processors.contains "shop.context_processors.customer") = true)
    (h5 : (!(te.backend == djangoBackend)
        || te.context_processors.contains "shop.context_processors.shop_settings") = true) :
    templateDiag te = [] := by
  unfold templateDiag
  cases hb : te.backend == djangoBackend with
  | false => simp [hb]
  | true =>
      rw [hb] at h4 h5
      simp at h4 h5
      simp [hb, h4, h5]

lemma templates_flatMap_nil (tes : List TemplateEngine)
    (h4 : tes.all (fun te => !(te.backend == djangoBackend)
        || te.context_processors.contains "shop.context_processors.customer") = true)
    (h5 : tes.all (fun te => !(te.backend == djangoBackend)
        || te.context_processors.contains "shop.context_processors.shop_settings") = true) :
    tes.flatMap templateDiag = [] := by
  induction tes with
  | nil => rfl
  | cons te rest ih =>
      rw [List.all_cons, Bool.and_eq_true] at h4 h5
      rw [List.flatMap_cons, templateDiag_eq_nil te h4.1 h5.1, ih h4.2 h5.2]
      rfl

lemma all_or_of_no_dj (tes : List TemplateEngine) (q : TemplateEngine → Bool)
    (h : ∀ te ∈ tes, (te.backend == djangoBackend) = false) :
    tes.all (fun te => !(te.backend == djangoBackend) || q te) = true := by
  induction tes with
  | nil => rfl
  | cons te rest ih =>
      simp only [List.all_cons, Bool.and_eq_true]
      refine ⟨?_, ih fun te2 h2 => h te2 (List.mem_cons_of_mem _ h2)⟩
      simp [h te (List.mem_cons_self te rest)]

lemma templates_flatMap_single (tes : List TemplateEngine)
    (hcount : tes.countP (fun te => te.backend == djangoBackend) ≤ 1) :
    tes.flatMap templateDiag
      = (if tes.all (fun te => !(te.backend == djangoBackend)
            || te.context_processors.contains "shop.context_processors.customer")
         then [] else [ruleMsg 4])
        ++ (if tes.all (fun te => !(te.backend == djangoBackend)
              || te.context_processors.contains "shop.context_processors.shop_settings")
            then [] else [ruleMsg 5]) := by
  induction tes with
  | nil => rfl
  | cons te rest ih =>
      rw [List.countP_cons] at hcount
      rw [List.flatMap_cons, List.all_cons, List.all_cons]
      cases hb : te.backend == djangoBackend with
      | false =>
          have hd : templateDiag te = [] := by
            unfold templateDiag
            simp [hb]
          simp only [hb] at hcount
          simp only [hb, Bool.not_false, Bool.true_or, Bool.true_and, hd,
            List.nil_append]
          exact ih (by omega)
      | true =>
          have hone : rest.countP (fun te => te.backend == djangoBackend) = 0 := by
            have hif : (if (te.backend == djangoBackend) = true
                then 1 else 0) = 1 := by simp [hb]
            omega
          have hrestdj : ∀ te2 ∈ rest, (te2.backend == djangoBackend) = false := by
            intro te2 h2
            cases hcase : te2.backend == djangoBackend with
            | false => rfl
            | true => exact absurd hcase (List.countP_eq_zero.mp hone te2 h2)
          have hr4 := all_or_of_no_dj rest
            (fun te => te.context_processors.contains "shop.context_processors.customer")
            hrestdj
          have hr5 := all_or_of_no_dj rest
            (fun te => te.context_processors.contains "shop.context_processors.shop_settings")
            hrestdj
          rw [templates_flatMap_nil rest hr4 hr5, hr4, hr5]
          unfold templateDiag
          rw [hb]
          cases hc : te.context_processors.contains "shop.context_processors.customer" <;>
        cases hs : te.context_processors.contains "shop.context_processors.shop_settings" <;>
        simp

lemma if_not_swap (b : Bool) (ms : List String) :
    (if (!b) = true then ms else []) = (if b = true then [] else ms) := by
  cases b <;> simp

lemma ruleOk_past_table (s : Settings) (k : Nat) : ruleOk s (k + 14) = true := rfl

/-- With at most one default-backend template engine, the diagnostics of
`review_settings` are exactly one `ruleMsg j` per violated rule `j`, in
table order. -/
lemma review_settings_decomp (s : Settings)
    (hcount : s.templates.countP (fun te => te.backend == djangoBackend) ≤ 1) :
    review_settings s
      = (List.range 14).flatMap (fun j => if ruleOk s j then [] else [ruleMsg j]) := by
  have hrange : List.range 14 = [0, 1, 2, 3, 4, 5, 6, 7, 8, 9, 10, 11, 12, 13] := by
    decide
  rw [hrange]
  simp only [List.flatMap_cons, List.flatMap_nil, List.append_nil]
  simp only [review_settings, ruleOk, bne]
  rw [templates_flatMap_single s.templates hcount]
  simp only [if_not_swap, List.append_assoc]

/-- Claim C4: a configuration satisfying every rule of the fixed rule
table produces no diagnostic at all. -/
theorem review_settings_all_rules_ok (s : Settings)
    (h : ∀ j, ruleOk s j = true) :
    review_settings s = [] := by
  have h0 : (s.auth_user_model == some "email_auth.User") = true := h 0
  have h1 : s.staticfiles_finders.contains "sass_processor.finders.CssFinder" = true := h 1
  have h2 : (s.staticfiles_dirs.map Prod.fst).contains "node_modules" = true := h 2
  have h3 : substr "/node_modules/" s.node_modules_url = true := h 3
  have h6 : (s.sass_processor_include_dirs.any fun dir => substr "/node_modules" dir)
      = true := h 6
  have h7 : (s.coerce_decimal_to_string == some true) = true := h 7
  have h8 : (s.fsm_admin_force_permit == some true) = true := h 8
  have h9 : (s.serialization_modules.lookup "json" == some "shop.money.serializers")
      = true := h 9
  have h10 : (lookupD s.rest_framework "DEFAULT_RENDERER_CLASSES" []).contains
      "shop.rest.money.JSONRenderer" = true := h 10
  have h11 : (lookupD s.rest_framework "DEFAULT_FILTER_BACKENDS" []).contains
      "django_filters.rest_framework.DjangoFilterBackend" = true := h 11
  have h12 : (s.rest_auth_serializers.lookup "LOGIN_SERIALIZER"
      == some "shop.serializers.auth.LoginSerializer") = true := h 12
  have h13 : s.cmsplugin_cascade_plugins.contains "shop.cascade" = true := h 13
  have hflat := templates_flatMap_nil s.templates (h 4) (h 5)
  simp at h1 h2 h10 h11 h13
  simp [review_settings, bne, h0, h1, h2, h3, h6, h7, h8, h9, h10, h11, h12, h13, hflat]

/-- Witness for C4: `goodSettings` satisfies every rule and the review
yields nothing. -/
theorem review_settings_all_rules_ok_witness : review_settings goodSettings = [] :=
  review_settings_all_rules_ok goodSettings (fun j => by
    match j with
    | 0 => decide
    | 1 => decide
    | 2 => decide
    | 3 => decide
    | 4 => decide
    | 5 => decide
    | 6 => decide
    | 7 => decide
    | 8 => decide
    | 9 => decide
    | 10 => decide
    | 11 => decide
    | 12 => decide
    | 13 => decide
    | k + 14 => rfl)

lemma flatMap_eq_nil_of_forall (f : Nat → List String) (l : List Nat)
    (h : ∀ j ∈ l, f j = []) : l.flatMap f = [] := by
  induction l with
  | nil => rfl
  | cons a rest ih =>
      rw [List.flatMap_cons, h a (List.mem_cons_self a rest),
        ih fun j hj => h j (List.mem_cons_of_mem _ hj)]
      rfl

lemma flatMap_range_single (f : Nat → List String) (n i : Nat) (hi : i < n)
    (hz : ∀ j, j < n → j ≠ i → f j = []) :
    (List.range n).flatMap f = f i := by
  induction n with
  | zero => omega
  | succ m ih =>
      rw [List.range_succ, List.flatMap_append]
      rcases Nat.lt_or_ge i m with him | him
      · rw [ih him (fun j hj hne => hz j (by omega) hne)]
        have hm : f m = [] := hz m (by omega) (by omega)
        simp [hm]
      · have hieq : i = m := by omega
        subst hieq
        have hz2 : (List.range i).flatMap f = [] := by
          apply flatMap_eq_nil_of_forall
          intro j hj
          rw [List.mem_range] at hj
          exact hz j (by omega) (by omega)
        simp [hz2]

/-- Counterexample to C5 as stated: `twoEngineSettings` violates exactly
one rule of the table (rule 4, the `customer` context processor), yet
`review_settings` yields two diagnostics, not one. -/
theorem review_settings_two_engines_cex :
    ruleOk twoEngineSettings 4 = false
    ∧ ((List.range 14).all fun j => j == 4 || ruleOk twoEngineSettings j) = true
    ∧ review_settings twoEngineSettings = [ruleMsg 4, ruleMsg 4]
    ∧ (review_settings twoEngineSettings).length = 2 := by
  refine ⟨by decide, by decide, by decide, by decide⟩

/-- Claim C5 (amended): on a configuration declaring at most one
default-backend template engine, violating exactly one rule of the
table while satisfying all the others yields exactly the one diagnostic
naming that setting. -/
theorem review_settings_single_violation (s : Settings) (i : Nat)
    (hcount : s.templates.countP (fun te => te.backend == djangoBackend) ≤ 1)
    (hbad : ruleOk s i = false)
    (hrest : ∀ j, j ≠ i → ruleOk s j = true) :
    review_settings s = [ruleMsg i] := by
  have hi : i < 14 := by
    by_contra hge
    have h14 : 14 ≤ i := by omega
    obtain ⟨k, hk⟩ := Nat.exists_eq_add_of_le h14
    rw [hk, Nat.add_comm, ruleOk_past_table] at hbad
    cases hbad
  rw [review_settings_decomp s hcount]
  rw [flatMap_range_single _ 14 i hi (fun j hj hne => by rw [hrest j hne]; rfl)]
  rw [hbad]
  rfl

/-- Witness for C5 (amended): breaking only `AUTH_USER_MODEL` yields
exactly that diagnostic. -/
theorem review_settings_single_violation_witness :
    review_settings badAuthSettings = [ruleMsg 0] :=
  review_settings_single_violation badAuthSettings 0 (by decide) (by decide)
    (fun j hj => by
      match j with
      | 0 => exact absurd rfl hj
      | 1 => decide
      | 2 => decide
      | 3 => decide
      | 4 => decide
      | 5 => decide
      | 6 => decide
      | 7 => decide
      | 8 => decide
      | 9 => decide
      | 10 => decide
      | 11 => decide
      | 12 => decide
      | 13 => decide
      | k + 14 => rfl)

/-! ### Page locator and check-pages theorems -/

/-- Claim C2 (code bug exhibited): on a store whose published search
page is bound to a different apphook than the installed
`CatalogSearchCMSApp` hook, `check_page_content` does not raise
`MissingAppHook`: formatting the mismatch message raises
`KeyError('app_hook')` (the template of source line 181 names
`app_hook` while line 182 passes `apphook_name`), an exception that is
none of the three typed failures and is not a `CommandError`. -/
theorem check_page_content_apphook_mismatch_keyerror :
    check_page_content mismatchEnv "shop-search-product" (some "CatalogSearchCMSApp")
      "ShopSearchResultsPlugin" []
      = Except.error (PyError.keyError "app_hook") := by
  rfl

/-- Counterexample to C3 as stated: when no `CatalogListCMSApp` subclass
is registered, the `MissingAppHook` raised on source line 101 escapes
the generator before any page requirement is evaluated: the whole run
aborts with the exception and surfaces no diagnostic line at all. -/
theorem check_pages_missing_catalog_apphook_aborts :
    check_pages noCatalogEnv false
      = Except.error (PyError.missingAppHook
          "The project must register an AppHook inheriting from 'CatalogListCMSApp'")
    ∧ msgsOf (check_pages noCatalogEnv false) = none := by
  exact ⟨by rfl, by rfl⟩

/-- Counterexample to C8 as stated: a pre-existing published cart page
without the required plugin fails with `MissingPlugin`, which the
repair run only reports and never repairs, so the second run still
yields the same finding instead of zero findings. -/
theorem check_pages_rerun_preexisting_cex :
    msgsOf (check_pages brokenCartEnv true)
      = some ["Created CMS page titled 'Catalog'",
              "Created CMS page titled 'Search'",
              "Page on URL '/cart' shall contain a plugin named 'Cart'.",
              "Created CMS page titled 'Watch-List'",
              "Created CMS page titled 'Your Orders'",
              "Created CMS page titled 'Login'",
              "Created CMS page titled 'Register Customer'",
              "Created CMS page titled 'Your Personal Details'",
              "Created CMS page titled 'Change Password'",
              "Created CMS page titled 'Request Password Reset'",
              "Created CMS page titled 'Confirm Password Reset'",
              "Created CMS page titled 'Checkout'"]
    ∧ msgsOf (check_pages brokenCartRepairedEnv false)
        = some ["Page on URL '/cart' shall contain a plugin named 'Cart'."]
    ∧ msgsOf (check_pages brokenCartRepairedEnv false) ≠ some [] := by
  refine ⟨by rfl, by rfl, ?_⟩
  intro hcontra
  rw [show msgsOf (check_pages brokenCartRepairedEnv false)
      = some ["Page on URL '/cart' shall contain a plugin named 'Cart'."] from rfl]
      at hcontra
  simp at hcontra

lemma except_bind_ok {α β : Type} (x : α) (f : α → Except PyError β) :
    (Except.ok x : Except PyError α) >>= f = f x := rfl

lemma checkPagesStep_report (env : Env) (msgs : List String) (attr : PageRequirement)
    (h : tabledErrorRes (check_page_content env attr.reverse_id attr.base_apphook_name
        attr.plugin_type attr.subset) = true) :
    checkPagesStep false (msgs, env) attr
      = Except.ok (msgs ++ entryDiag env attr, env) := by
  simp only [checkPagesStep, entryDiag]
  cases hres : check_page_content env attr.reverse_id attr.base_apphook_name
      attr.plugin_type attr.subset with
  | ok u => simp
  | error e =>
      rw [hres] at h
      cases e with
      | missingPage m => simp
      | missingAppHook m => simp
      | missingPlugin m => simp
      | keyError k => simp [tabledErrorRes, tabledError] at h
      | indexError => simp [tabledErrorRes, tabledError] at h

lemma foldlM_report (env : Env) : ∀ (attrs : List PageRequirement) (msgs : List String),
    (∀ attr ∈ attrs, tabledErrorRes (check_page_content env attr.reverse_id
        attr.base_apphook_name attr.plugin_type attr.subset) = true) →
    attrs.foldlM (checkPagesStep false) (msgs, env)
      = Except.ok (msgs ++ attrs.flatMap (entryDiag env), env) := by
  intro attrs
  induction attrs with
  | nil =>
      intro msgs h
      simp only [List.foldlM_nil, List.flatMap_nil, List.append_nil]
      rfl
  | cons attr rest ih =>
      intro msgs h
      rw [List.foldlM_cons,
        checkPagesStep_report env msgs attr (h attr (List.mem_cons_self attr rest)),
        except_bind_ok,
        ih (msgs ++ entryDiag env attr) (fun a ha => h a (List.mem_cons_of_mem _ ha)),
        List.flatMap_cons, List.append_assoc]

/-- Claim C3 (amended): provided a `CatalogListCMSApp` hook is
registered, a public language exists, and every tabled check fails (if
at all) with one of the three `CommandError` failures, the report run
completes without aborting, its diagnostics being the catalog finding,
then one line per failing tabled requirement (in table order), then the
checkout finding; each failing tabled requirement contributes exactly
its one error message.  (As the counterexample shows, a `MissingAppHook`
from the initial catalog lookup instead aborts the whole run, and the
`KeyError` of the mismatch path of source line 182 would too.) -/
theorem check_pages_report_structure (env : Env) (ah : Apphook) (language : String)
    (hcat : get_installed_apphook env "CatalogListCMSApp" = Except.ok ah)
    (hlang : env.public_languages.head? = some language)
    (htab : ∀ attr ∈ page_attributes, tabledErrorRes (check_page_content env
        attr.reverse_id attr.base_apphook_name attr.plugin_type attr.subset) = true) :
    check_pages env false
      = Except.ok ((catalogDiag env ah ++ page_attributes.flatMap (entryDiag env))
          ++ checkoutDiag env language, env)
    ∧ ∀ attr ∈ page_attributes, ∀ e,
        check_page_content env attr.reverse_id attr.base_apphook_name
            attr.plugin_type attr.subset = Except.error e →
        entryDiag env attr = [errMsg e] := by
  constructor
  · have hfoldCat := foldlM_report env page_attributes [catalogMissingMsg] htab
    have hfoldNil := foldlM_report env page_attributes [] htab
    unfold check_pages
    rw [hcat]
    cases hempty : (env.pages.filter fun p =>
        p.is_public && p.application_urls == ah.name).isEmpty with
    | true =>
        cases hfound : (publishedPluginsOfType env "ShopProceedButton" language).any
            (fun pl => purchaseLink pl.glossary) with
        | true =>
            simp only [except_bind_ok, hfoldCat, hlang, hempty, hfound, catalogDiag,
              checkoutDiag, eq_self_iff_true, if_true, Bool.false_eq_true, if_false,
              List.append_assoc, List.nil_append, List.append_nil,
              List.singleton_append, List.cons_append]
        | false =>
            simp only [except_bind_ok, hfoldCat, hlang, hempty, hfound, catalogDiag,
              checkoutDiag, eq_self_iff_true, if_true, Bool.false_eq_true, if_false,
              List.append_assoc, List.nil_append, List.append_nil,
              List.singleton_append, List.cons_append]
    | false =>
        cases hfound : (publishedPluginsOfType env "ShopProceedButton" language).any
            (fun pl => purchaseLink pl.glossary) with
        | true =>
            simp only [except_bind_ok, hfoldNil, hlang, hempty, hfound, catalogDiag,
              checkoutDiag, eq_self_iff_true, if_true, Bool.false_eq_true, if_false,
              List.append_assoc, List.nil_append, List.append_nil,
              List.singleton_append, List.cons_append]
        | false =>
            simp only [except_bind_ok, hfoldNil, hlang, hempty, hfound, catalogDiag,
              checkoutDiag, eq_self_iff_true, if_true, Bool.false_eq_true, if_false,
              List.append_assoc, List.nil_append, List.append_nil,
              List.singleton_append, List.cons_append]
  · intro attr hmem e he
    have hok := htab attr hmem
    rw [he] at hok
    unfold entryDiag
    rw [he]
    cases e with
    | missingPage m => rfl
    | missingAppHook m => rfl
    | missingPlugin m => rfl
    | keyError k => simp [tabledErrorRes, tabledError] at hok
    | indexError => simp [tabledErrorRes, tabledError] at hok

/-- Witness for C3 (amended): the report run on the empty store yields
the catalog finding, ten tabled findings and the checkout finding, and
completes. -/
theorem check_pages_report_structure_witness :
    check_pages emptyStoreEnv false
      = Except.ok ((catalogDiag emptyStoreEnv catalogApphook
          ++ page_attributes.flatMap (entryDiag emptyStoreEnv))
          ++ checkoutDiag emptyStoreEnv "en", emptyStoreEnv) :=
  (check_pages_report_structure emptyStoreEnv catalogApphook "en" rfl rfl (by decide)).1

/-- Claim C8 (amended): on a store with no pre-existing pages (one
public language, required apphooks registered), the first
`check-pages --add-missing` run repairs every page requirement — the
catalog page, the ten tabled pages and the checkout page — and the
second run yields zero findings. -/
theorem check_pages_rerun_empty_store :
    msgsOf (check_pages emptyStoreEnv true)
      = some ["Created CMS page titled 'Catalog'",
              "Created CMS page titled 'Search'",
              "Created CMS page titled 'Cart'",
              "Created CMS page titled 'Watch-List'",
              "Created CMS page titled 'Your Orders'",
              "Created CMS page titled 'Login'",
              "Created CMS page titled 'Register Customer'",
              "Created CMS page titled 'Your Personal Details'",
              "Created CMS page titled 'Change Password'",
              "Created CMS page titled 'Request Password Reset'",
              "Created CMS page titled 'Confirm Password Reset'",
              "Created CMS page titled 'Checkout'"]
    ∧ msgsOf (check_pages repairedEnv false) = some [] := by
  exact ⟨by rfl, by rfl⟩

/-! ### Subset-check semantics of `check_page_content` -/

lemma pyFormat_pluginRequired (url pn : String) :
    pyFormat pluginRequiredTpl [("url", url), ("plugin_name", pn)]
      = Except.ok ("Page on URL '" ++ (url ++ ("' shall contain a plugin named '"
          ++ (pn ++ ("'." ++ ""))))) := rfl

lemma pyFormat_misconfigured (url pn : String) :
    pyFormat misconfiguredTpl [("url", url), ("plugin_name", pn)]
      = Except.ok ("Plugin named '" ++ (pn ++ ("' on page with URL '"
          ++ (url ++ ("' is misconfigured." ++ ""))))) := rfl

/-- The per-language loop succeeds exactly when every language of the
page carries a first plugin of the required type whose glossary holds
every pair of the required subset. -/
lemma checkPluginForLanguages_ok_iff (url pn pt : String)
    (subset : List (String × GVal)) (ph : Placeholder) (langs : List String) :
    checkPluginForLanguages url pn pt subset ph langs = Except.ok () ↔
      ∀ lang ∈ langs, ∃ pl,
        (ph.plugins.filter fun q =>
            q.plugin_type == pt && q.language == lang).head? = some pl
        ∧ ∀ item ∈ subset, item ∈ pl.glossary := by
  induction langs with
  | nil => simp [checkPluginForLanguages]
  | cons lang rest ih =>
      cases hhead : (ph.plugins.filter fun q =>
          q.plugin_type == pt && q.language == lang).head? with
      | none =>
          apply iff_of_false
          · intro hcontra
            unfold checkPluginForLanguages at hcontra
            simp [hhead, pyFormat_pluginRequired, Except.bind] at hcontra
          · intro hcontra
            obtain ⟨pl, hpl, _⟩ := hcontra lang (List.mem_cons_self lang rest)
            rw [hhead] at hpl
            exact Option.noConfusion hpl
      | some pl =>
          cases hall : subset.all (fun item => decide (item ∈ pl.glossary)) with
          | false =>
              apply iff_of_false
              · intro hcontra
                unfold checkPluginForLanguages at hcontra
                simp [hhead, hall, pyFormat_misconfigured, Except.bind] at hcontra
              · intro hcontra
                obtain ⟨pl2, hpl2, hsub⟩ := hcontra lang (List.mem_cons_self lang rest)
                rw [hhead] at hpl2
                obtain rfl : pl = pl2 := by
                  injection hpl2
                have hall2 : subset.all (fun item => decide (item ∈ pl.glossary)) = true := by
                  rw [List.all_eq_true]
                  intro item hitem
                  simpa using hsub item hitem
                rw [hall] at hall2
                exact Bool.noConfusion hall2
          | true =>
              unfold checkPluginForLanguages
              simp only [hhead, hall, Bool.not_true, Bool.false_eq_true, if_false]
              rw [ih]
              constructor
              · intro hrest lang2 hmem
                rcases List.mem_cons.mp hmem with rfl | hmem2
                · refine ⟨pl, hhead, fun item hitem => ?_⟩
                  have := List.all_eq_true.mp hall item hitem
                  simpa using this
                · exact hrest lang2 hmem2
              · intro hall2 lang2 hmem
                exact hall2 lang2 (List.mem_cons_of_mem _ hmem)

/-- On a store where the page, the apphook stage, the placeholder and
the plugin-pool lookup all resolve, `check_page_content` is exactly the
per-language plugin check. -/
lemma check_page_content_reduces (env : Env) (reverse_id : String)
    (bah : Option String) (pt : String) (subset : List (String × GVal))
    (page : Page) (ph : Placeholder) (pn : String)
    (h1 : (env.pages.filter fun p =>
        p.is_public && p.reverse_id == reverse_id).head? = some page)
    (happ : ∀ b, bah = some b → ∃ a, get_installed_apphook env b = Except.ok a
        ∧ (env.apphooks.find? fun x => x.name == page.application_urls) = some a)
    (h2 : (page.placeholders.filter fun q => q.slot == "Main Content").head? = some ph)
    (h3 : env.plugin_pool.lookup pt = some pn) :
    check_page_content env reverse_id bah pt subset
      = checkPluginForLanguages page.url pn pt subset ph page.languages := by
  cases bah with
  | none => simp only [check_page_content, h1, h2, h3, Except.bind]
  | some b =>
      obtain ⟨a, ha, hfind⟩ := happ b rfl
      simp only [check_page_content, h1, ha, hfind, h2, h3, Except.bind, ne_eq,
        not_true, if_false, eq_self_iff_true]

/-- Claim C1: with the page, placeholder and plugin pool resolved (and
no page-type handler required), the check succeeds exactly when, for
every language the page supports, the first plugin of the required type
exists and every (key, value) pair of the required subset appears among
its glossary items; in particular the required subset `{"a": 1}`
succeeds against the widget configured `{"a": 1, "b": 2}` and fails
with the `MissingPlugin` misconfiguration signal against the widget
configured `{"a": 2}`. -/
theorem check_page_content_subset_semantics (env : Env) (reverse_id pt : String)
    (subset : List (String × GVal)) (page : Page) (ph : Placeholder) (pn : String)
    (h1 : (env.pages.filter fun p =>
        p.is_public && p.reverse_id == reverse_id).head? = some page)
    (h2 : (page.placeholders.filter fun q => q.slot == "Main Content").head? = some ph)
    (h3 : env.plugin_pool.lookup pt = some pn) :
    (check_page_content env reverse_id none pt subset = Except.ok () ↔
      ∀ lang ∈ page.languages, ∃ pl,
        (ph.plugins.filter fun q =>
            q.plugin_type == pt && q.language == lang).head? = some pl
        ∧ ∀ item ∈ subset, item ∈ pl.glossary)
    ∧ check_page_content widgetEnv "page-a" none "WidgetPlugin" [("a", GVal.num 1)]
        = Except.ok ()
    ∧ check_page_content widgetEnv "page-b" none "WidgetPlugin" [("a", GVal.num 1)]
        = Except.error (PyError.missingPlugin
            "Plugin named 'Widget' on page with URL '/b' is misconfigured.") := by
  refine ⟨?_, by rfl, by rfl⟩
  rw [check_page_content_reduces env reverse_id none pt subset page ph pn h1
    (fun b hb => Option.noConfusion hb) h2 h3]
  exact checkPluginForLanguages_ok_iff page.url pn pt subset ph page.languages

/-- Witness for C1 at the concrete store: `{"a": 1}` against
`{"a": 1, "b": 2}` succeeds. -/
theorem check_page_content_subset_semantics_witness :
    check_page_content widgetEnv "page-a" none "WidgetPlugin" [("a", GVal.num 1)]
      = Except.ok () :=
  (check_page_content_subset_semantics widgetEnv "page-a" "WidgetPlugin"
    [("a", GVal.num 1)] widgetPageA widgetPhA "Widget" rfl rfl rfl).2.1

/-- Claim C9: with an empty required subset, the misconfiguration branch
is unreachable: whenever the page and placeholder resolve, the
plugin type is registered, the optional page-type-handler stage passes
and a matching plugin instance exists for every language of the page,
the check succeeds whatever each widget's glossary holds. -/
theorem check_page_content_empty_subset (env : Env) (reverse_id pt : String)
    (bah : Option String) (page : Page) (ph : Placeholder) (pn : String)
    (h1 : (env.pages.filter fun p =>
        p.is_public && p.reverse_id == reverse_id).head? = some page)
    (happ : ∀ b, bah = some b → ∃ a, get_installed_apphook env b = Except.ok a
        ∧ (env.apphooks.find? fun x => x.name == page.application_urls) = some a)
    (h2 : (page.placeholders.filter fun q => q.slot == "Main Content").head? = some ph)
    (h3 : env.plugin_pool.lookup pt = some pn)
    (h4 : ∀ lang ∈ page.languages, ∃ pl,
        (ph.plugins.filter fun q =>
            q.plugin_type == pt && q.language == lang).head? = some pl) :
    check_page_content env reverse_id bah pt [] = Except.ok () := by
  rw [check_page_content_reduces env reverse_id bah pt [] page ph pn h1 happ h2 h3]
  rw [checkPluginForLanguages_ok_iff]
  intro lang hmem
  obtain ⟨pl, hpl⟩ := h4 lang hmem
  exact ⟨pl, hpl, by simp⟩

/-- Witness for C9: the empty subset succeeds against the widget
configured `{"a": 2}` whose glossary would fail the `{"a": 1}` check. -/
theorem check_page_content_empty_subset_witness :
    check_page_content widgetEnv "page-b" none "WidgetPlugin" [] = Except.ok () :=
  check_page_content_empty_subset widgetEnv "page-b" "WidgetPlugin" none
    widgetPageB widgetPhB "Widget" rfl (fun b hb => Option.noConfusion hb) rfl rfl
    (fun lang hmem => by
      simp [widgetPageB] at hmem
      subst hmem
      exact ⟨widgetPluginB, rfl⟩)

end DjangoShop
